import Mathlib

/-!
# Verification of the task tracker (task store + reporting engine)

Shallow embedding of the two Python modules:

* `Tasks`   — the task store (`Код 2.py`): `Task`, `TaskManager` with
  create/get/update/delete/filter over an in-memory list, persisted as a
  list of field dictionaries on every mutation.
* `Reports` — the reporting engine (`Код 3.py`): date filtering, the
  summary report and the timeline report over a snapshot of task records.

Timestamps in the store module are ISO-8601 strings, modelled as `String`
values supplied explicitly (`now` parameters) in place of `datetime.now()`.
The reporting module works on parsed `datetime` values, modelled as a pair
of an epoch day and a second-of-day.
-/

namespace Tasks

/-- A task record, mirroring the fields of the Python `Task` class.
`id` is a Python `int`, the four text fields are strings; `created_at` and
`updated_at` hold ISO-8601 timestamps. -/
structure Task where
  id : Int
  title : String
  description : String
  status : String
  created_at : String
  updated_at : String
deriving DecidableEq, Repr

/-- The dictionary produced by `Task.to_dict` / consumed by `Task.from_dict`.
`created_at` / `updated_at` are read with `dict.get`, so they are optional;
the other four keys are accessed directly (`data["id"]` etc.). -/
structure TaskDict where
  id : Int
  title : String
  description : String
  status : String
  created_at : Option String
  updated_at : Option String
deriving DecidableEq, Repr

/-- `Task.to_dict`: all six fields are always written. -/
def to_dict (t : Task) : TaskDict :=
  { id := t.id, title := t.title, description := t.description,
    status := t.status, created_at := some t.created_at,
    updated_at := some t.updated_at }

/-- Python `x or y` for an optional string `x`: `None` and the empty string
are falsy, so both fall back to `y`. Models `created_at or datetime.now().isoformat()`
in `Task.__init__`. -/
def pyOr : Option String → String → String
  | none, y => y
  | some s, y => if s = "" then y else s

/-- `Task.from_dict` followed by `Task.__init__`: the optional timestamps
fall back to the current time (`now`) when absent or empty. -/
def from_dict (now : String) (d : TaskDict) : Task :=
  { id := d.id, title := d.title, description := d.description,
    status := d.status, created_at := pyOr d.created_at now,
    updated_at := pyOr d.updated_at now }

/-- The manager's state: the in-memory list `self.tasks` plus the contents
of the backing file (the JSON list of task dictionaries). -/
structure StoreState where
  tasks : List Task
  file : List TaskDict
deriving DecidableEq, Repr

/-- `TaskManager.save_tasks`: overwrite the file with the serialized
collection. -/
def save_tasks (st : StoreState) : StoreState :=
  { st with file := st.tasks.map to_dict }

/-- `TaskManager.load_tasks` applied to a file's contents: each dictionary
becomes a task (`now` stands for `datetime.now().isoformat()` at load time,
used only for absent/empty timestamps). -/
def load_tasks (now : String) (file : List TaskDict) : List Task :=
  file.map (from_dict now)

/-- A fresh `TaskManager()` over a missing (or corrupt) file: empty
collection, empty file. -/
def initState : StoreState := { tasks := [], file := [] }

/-- Python `str.strip()`: drop leading and trailing whitespace. -/
def pyStrip (s : String) : String :=
  String.mk (((s.data.dropWhile Char.isWhitespace).reverse.dropWhile
    Char.isWhitespace).reverse)

/-- Python `str.lower()` (ASCII case mapping, which covers every string
appearing in a statement below). -/
def pyLower (s : String) : String :=
  String.mk (s.data.map Char.toLower)

/-- Python string `<=`: lexicographic comparison by code point — the order
in which ISO-8601 timestamps of equal precision are chronological. -/
def strLe (a b : String) : Prop :=
  a.data < b.data ∨ a = b

instance (a b : String) : Decidable (strLe a b) :=
  inferInstanceAs (Decidable (a.data < b.data ∨ a = b))

/-- `max([task.id for task in self.tasks], default=0)`: the maximum of the
ids, or `0` when the collection is empty (Python `max` with `default`,
not a fold from `0`). -/
def maxIds (ts : List Task) : Int :=
  match ts.map Task.id with
  | [] => 0
  | x :: xs => xs.foldl max x

/-- `TaskManager.create_task`: fails on a whitespace-only title, otherwise
allocates `maxIds + 1`, stamps both timestamps with `now`, appends and
saves. Returns the Python pair `(task_or_None, message)` with the new state. -/
def create_task (st : StoreState) (title description now : String) :
    (Option Task × String) × StoreState :=
  if pyStrip title = "" then
    ((none, "Название задачи не может быть пустым"), st)
  else
    let task : Task :=
      { id := maxIds st.tasks + 1, title := title, description := description,
        status := "активная", created_at := now, updated_at := now }
    let tasks2 := st.tasks ++ [task]
    ((some task, "Задача успешно создана"),
      save_tasks { st with tasks := tasks2 })

/-- `TaskManager.get_task`: first task with the given id, if any. -/
def get_task (ts : List Task) (task_id : Int) : Option Task :=
  match ts with
  | [] => none
  | t :: rest => if t.id = task_id then some t else get_task rest task_id

/-- The in-place mutation done by `update_task` on the first task whose id
matches: each supplied field replaces the old one (`is not None` checks, so
an empty string counts as supplied), and `updated_at` is refreshed. -/
def setTask (task_id : Int) (title description status : Option String)
    (now : String) : List Task → List Task
  | [] => []
  | t :: rest =>
    if t.id = task_id then
      { id := t.id, title := title.getD t.title,
        description := description.getD t.description,
        status := status.getD t.status,
        created_at := t.created_at, updated_at := now } :: rest
    else t :: setTask task_id title description status now rest

/-- `TaskManager.update_task`: not-found failure leaves the state untouched
(no save); otherwise the matching task is mutated and the store saved. -/
def update_task (st : StoreState) (task_id : Int)
    (title description status : Option String) (now : String) :
    (Bool × String) × StoreState :=
  match get_task st.tasks task_id with
  | none => ((false, "Задача не найдена"), st)
  | some _ =>
    let tasks2 := setTask task_id title description status now st.tasks
    ((true, "Задача успешно обновлена"),
      save_tasks { st with tasks := tasks2 })

/-- `TaskManager.delete_task`: not-found failure leaves the state untouched
(no save); otherwise every task with the id is removed and the store saved. -/
def delete_task (st : StoreState) (task_id : Int) :
    (Bool × String) × StoreState :=
  match get_task st.tasks task_id with
  | none => ((false, "Задача не найдена"), st)
  | some _ =>
    let tasks2 := st.tasks.filter (fun t => t.id ≠ task_id)
    ((true, "Задача успешно удалена"),
      save_tasks { st with tasks := tasks2 })

/-- Boolean prefix test on character lists. -/
def listIsPref : List Char → List Char → Bool
  | [], _ => true
  | _ :: _, [] => false
  | c :: cs, h :: hs => c == h && listIsPref cs hs

/-- Substring containment on character lists (Python `needle in hay`). -/
def listContainsSub (needle : List Char) : List Char → Bool
  | [] => listIsPref needle []
  | h :: hs => listIsPref needle (h :: hs) || listContainsSub needle hs

/-- Python `needle in hay` for strings: substring containment. -/
def pyInStr (needle hay : String) : Bool :=
  listContainsSub needle.data hay.data

/-- `TaskManager.filter_tasks`: the status filter runs only when `status`
is truthy (not `None`, not empty), then the keyword filter runs only when
`keyword` is truthy, case-insensitively over title and description. -/
def filter_tasks (ts : List Task) (status keyword : Option String) :
    List Task :=
  let f1 :=
    match status with
    | some s => if s = "" then ts else ts.filter (fun t => t.status == s)
    | none => ts
  match keyword with
  | some k =>
    if k = "" then f1
    else
      let kl := pyLower k
      f1.filter (fun t =>
        pyInStr kl (pyLower t.title) || pyInStr kl (pyLower t.description))
  | none => f1

/-- One client operation against the store; the `now` arguments stand for
the wall-clock readings `datetime.now().isoformat()` taken inside the calls. -/
inductive Op where
  | create (title description now : String)
  | update (task_id : Int) (title description status : Option String) (now : String)
  | delete (task_id : Int)
deriving DecidableEq, Repr

/-- Run one operation, keeping only the resulting state. -/
def execOp (st : StoreState) : Op → StoreState
  | .create title description now => (create_task st title description now).2
  | .update task_id title description status now =>
      (update_task st task_id title description status now).2
  | .delete task_id => (delete_task st task_id).2

/-- Run a sequence of operations from a given state. -/
def execOps (st : StoreState) : List Op → StoreState
  | [] => st
  | op :: ops => execOps (execOp st op) ops

end Tasks

namespace Reports

/-- A parsed naive `datetime`: the calendar day as an epoch-day number and
the time of day in seconds. Comparison is lexicographic, matching Python
`datetime` ordering. -/
structure DateTime where
  day : Int
  sec : Int
deriving DecidableEq, Repr

/-- `datetime` ordering: by calendar day, then by time of day. -/
def DateTime.le (a b : DateTime) : Prop :=
  a.day < b.day ∨ (a.day = b.day ∧ a.sec ≤ b.sec)

instance (a b : DateTime) : Decidable (DateTime.le a b) :=
  inferInstanceAs (Decidable (a.day < b.day ∨ (a.day = b.day ∧ a.sec ≤ b.sec)))

/-- `dt - timedelta(days=n)`: shifts the calendar day, leaves the time. -/
def DateTime.subDays (a : DateTime) (n : Int) : DateTime :=
  { day := a.day - n, sec := a.sec }

/-- Numeric value of a decimal digit character. -/
def digitVal (c : Char) : Option Int :=
  if c.isDigit then some ((c.toNat : Int) - 48) else none

/-- Two decimal digits. -/
def parse2 (a b : Char) : Option Int := do
  let x ← digitVal a
  let y ← digitVal b
  pure (10 * x + y)

/-- Four decimal digits. -/
def parse4 (a b c d : Char) : Option Int := do
  let x ← parse2 a b
  let y ← parse2 c d
  pure (100 * x + y)

/-- Gregorian leap year. -/
def isLeap (y : Int) : Bool :=
  (y % 4 == 0 && y % 100 != 0) || y % 400 == 0

/-- Length of a month. -/
def daysInMonth (y m : Int) : Int :=
  if m = 2 then (if isLeap y then 29 else 28)
  else if m = 4 ∨ m = 6 ∨ m = 9 ∨ m = 11 then 30
  else 31

/-- Civil date to epoch-day count (days since 1970-01-01), the standard
era-based conversion; all divisions below act on non-negative values. -/
def daysFromCivil (y m d : Int) : Int :=
  let y2 := if m ≤ 2 then y - 1 else y
  let era := (if 0 ≤ y2 then y2 else y2 - 399) / 400
  let yoe := y2 - era * 400
  let mp := (m + 9) % 12
  let doy := (153 * mp + 2) / 5 + d - 1
  let doe := yoe * 365 + yoe / 4 - yoe / 100 + doy
  era * 146097 + doe - 719468

/-- Validated civil date to epoch day. -/
def mkDate (y m d : Int) : Option Int :=
  if 1 ≤ y ∧ 1 ≤ m ∧ m ≤ 12 ∧ 1 ≤ d ∧ d ≤ daysInMonth y m then
    some (daysFromCivil y m d)
  else none

/-- `datetime.fromisoformat` on the shapes the module uses:
`YYYY-MM-DD` and `YYYY-MM-DD(T| )HH:MM:SS`; `none` models the
`ValueError` raised on anything malformed. -/
def fromisoformat (s : String) : Option DateTime :=
  match s.data with
  | [a, b, c, d, h1, e, f, h2, g, h] =>
    if h1 = '-' ∧ h2 = '-' then do
      let y ← parse4 a b c d
      let m ← parse2 e f
      let dd ← parse2 g h
      let day ← mkDate y m dd
      pure { day := day, sec := 0 }
    else none
  | [a, b, c, d, h1, e, f, h2, g, h, sep, t1, t2, c1, t3, t4, c2, t5, t6] =>
    if (h1 = '-' ∧ h2 = '-') ∧ (sep = 'T' ∨ sep = ' ') ∧ c1 = ':' ∧ c2 = ':' then do
      let y ← parse4 a b c d
      let m ← parse2 e f
      let dd ← parse2 g h
      let hh ← parse2 t1 t2
      let mi ← parse2 t3 t4
      let ss ← parse2 t5 t6
      if hh ≤ 23 ∧ mi ≤ 59 ∧ ss ≤ 59 then do
        let day ← mkDate y m dd
        pure { day := day, sec := hh * 3600 + mi * 60 + ss }
      else none
    else none
  | _ => none

/-- A task record as the reporting module sees it (a loaded dictionary);
`created_at` stands for the parsed `datetime.fromisoformat(task["created_at"])`
and `status` for `task.get("status", "неизвестно")`. -/
structure RTask where
  id : Int
  title : String
  status : String
  created_at : DateTime
deriving DecidableEq, Repr

/-- Python truthiness of the optional `period_days` argument: `None` and
`0` are falsy. -/
def pyTruthyInt : Option Int → Bool
  | none => false
  | some n => n != 0

/-- Python truthiness of an optional string: `None` and `""` are falsy. -/
def pyTruthyStr : Option String → Bool
  | none => false
  | some s => s != ""

/-- `TaskReporting._filter_tasks_by_date`: per task, the period branch wins
when `period_days` is truthy; otherwise the range branch runs only when both
bound strings are truthy, and a `ValueError` from parsing either bound skips
the append for that task (the printed notice has no further effect). A task
matching neither branch is never appended. -/
def filter_tasks_by_date (now : DateTime) (period_days : Option Int)
    (start_date end_date : Option String) : List RTask → List RTask
  | [] => []
  | t :: ts =>
    let rest := filter_tasks_by_date now period_days start_date end_date ts
    if pyTruthyInt period_days then
      let cutoff := now.subDays (period_days.getD 0)
      if DateTime.le cutoff t.created_at then t :: rest else rest
    else if pyTruthyStr start_date && pyTruthyStr end_date then
      match fromisoformat (start_date.getD ""), fromisoformat (end_date.getD "") with
      | some s, some e =>
        if DateTime.le s t.created_at ∧ DateTime.le t.created_at e then
          t :: rest
        else rest
      | _, _ => rest
    else rest

/-- `defaultdict(int)` increment, keeping Python dict insertion order:
bump the key's count if present, else append it with count 1. -/
def bumpKey {α : Type} [DecidableEq α] (k : α) :
    List (α × Nat) → List (α × Nat)
  | [] => [(k, 1)]
  | (k2, n) :: rest =>
    if k2 = k then (k2, n + 1) :: rest else (k2, n) :: bumpKey k rest

/-- The `status_count` dictionary of a task list. -/
def statusCount (ts : List RTask) : List (String × Nat) :=
  ts.foldl (fun acc t => bumpKey t.status acc) []

/-- The `tasks_by_day` dictionary: creation count per calendar day
(the `strftime("%Y-%m-%d")` key is the calendar day). -/
def tasksByDay (ts : List RTask) : List (Int × Nat) :=
  ts.foldl (fun acc t => bumpKey t.created_at.day acc) []

/-- Python `dict.get(k, 0)` on a counting dictionary. -/
def dictGet (l : List (String × Nat)) (k : String) : Nat :=
  match l with
  | [] => 0
  | (k2, n) :: rest => if k2 = k then n else dictGet rest k

/-- Python `max(items, key=lambda x: x[1])` over dict iteration order:
the first entry with the maximal count (later ties do not replace). -/
def firstMax : List (Int × Nat) → Option (Int × Nat)
  | [] => none
  | p :: rest => some (rest.foldl (fun best q => if q.2 > best.2 then q else best) p)

/-- `round(a / b)` for naturals with `b > 0`, computed exactly: floor of
`a / b + 1 / 2`. Exact half-way ties round up here; Python's float `round`
is banker's at an exact tie, a case that arises in no statement below. -/
def roundHalfDiv (a b : Nat) : Nat :=
  (2 * a + b) / (2 * b)

/-- `round((c / t) * 100, 2)` expressed exactly in hundredths of a percent
(fixed-point with two decimal digits), so `66.67` is `6667`. -/
def ratioCents (c t : Nat) : Nat :=
  roundHalfDiv (c * 10000) t

/-- `round(a / b, 2)` expressed exactly in hundredths, so `3.0` is `300`. -/
def avgCents (a b : Nat) : Nat :=
  roundHalfDiv (a * 100) b

/-- `period_map` of `generate_summary_report`. -/
def period_map (period : String) : Option Int :=
  if period = "today" then some 1
  else if period = "week" then some 7
  else if period = "month" then some 30
  else none

/-- The dictionary returned by `generate_summary_report` on the non-empty
path; `most_active_date = none` renders the "Нет данных" placeholder. The
two rounded float fields are held exactly as fixed-point hundredths
(`completion_rate = 66.67` is stored as `6667`). -/
structure SummaryReport where
  period : String
  total_tasks : Nat
  status_distribution : List (String × Nat)
  completion_rate_cents : Nat
  most_active_date : Option Int
  most_active_count : Nat
  average_tasks_per_day_cents : Nat
deriving DecidableEq, Repr

/-- Result of `generate_summary_report`: the error dictionary
("Нет данных для отчета") or a report. -/
inductive SummaryResult where
  | noData
  | ok (r : SummaryReport)
deriving DecidableEq, Repr

/-- The tasks in scope of a summary report: date-filtered for the three
named periods, the whole snapshot otherwise. -/
def summaryScope (now : DateTime) (tasks : List RTask) (period : String) :
    List RTask :=
  match period_map period with
  | some pd => filter_tasks_by_date now (some pd) none none tasks
  | none => tasks

/-- `TaskReporting.generate_summary_report`. -/
def generate_summary_report (now : DateTime) (tasks : List RTask)
    (period : String) : SummaryResult :=
  if tasks = [] then .noData
  else
    let filtered := summaryScope now tasks period
    let total : Nat := filtered.length
    let status_count := statusCount filtered
    let completed : Nat := dictGet status_count "завершенная"
    let tasks_by_day := tasksByDay filtered
    .ok
      { period := period
        total_tasks := total
        status_distribution := status_count
        completion_rate_cents := if total > 0 then ratioCents completed total else 0
        most_active_date := (firstMax tasks_by_day).map Prod.fst
        most_active_count :=
          match firstMax tasks_by_day with
          | some p => p.2
          | none => 0
        average_tasks_per_day_cents :=
          if tasks_by_day = [] then 0
          else avgCents total tasks_by_day.length }

/-- One day's entry in the timeline report. -/
structure TimelineEntry where
  date : Int
  total_tasks : Nat
  statuses : List (String × Nat)
deriving DecidableEq, Repr

/-- The dictionary returned by `generate_timeline_report` on the non-empty
path. -/
structure TimelineReport where
  period_days : Nat
  timeline : List TimelineEntry
deriving DecidableEq, Repr

/-- Result of `generate_timeline_report`. -/
inductive TimelineResult where
  | noData
  | ok (r : TimelineReport)
deriving DecidableEq, Repr

/-- `TaskReporting.generate_timeline_report`: one entry per day from
`now - days` through `now`, each counting the tasks created on that
calendar day (time of day ignored). -/
def generate_timeline_report (now : DateTime) (tasks : List RTask)
    (days : Nat) : TimelineResult :=
  if tasks = [] then .noData
  else
    .ok
      { period_days := days
        timeline :=
          (List.range (days + 1)).map (fun (i : Nat) =>
            let d := now.day - (days : Int) + (i : Int)
            let daily := tasks.filter (fun t => t.created_at.day == d)
            { date := d
              total_tasks := daily.length
              statuses := statusCount daily }) }

/-- The timeline entries of a result (empty on the no-data sentinel). -/
def TimelineResult.entries : TimelineResult → List TimelineEntry
  | .noData => []
  | .ok r => r.timeline

end Reports

/-! ## Lemmas about the task store -/

namespace Tasks

theorem le_foldl_max (xs : List Int) (x y : Int) (h : y ≤ x) :
    y ≤ xs.foldl max x := by
  induction xs generalizing x with
  | nil => exact h
  | cons a as ih => exact ih (max x a) (le_trans h (le_max_left x a))

theorem mem_le_foldl_max (xs : List Int) (x y : Int) (h : y ∈ xs) :
    y ≤ xs.foldl max x := by
  induction xs generalizing x with
  | nil => cases h
  | cons a as ih =>
    rcases List.mem_cons.mp h with rfl | h2
    · exact le_foldl_max as (max x y) y (le_max_right x y)
    · exact ih (max x a) h2

/-- Every live id is at most the allocator's maximum. -/
theorem id_le_maxIds (ts : List Task) (t : Task) (h : t ∈ ts) :
    t.id ≤ maxIds ts := by
  unfold maxIds
  cases hm : ts.map Task.id with
  | nil =>
    rcases List.map_eq_nil_iff.mp hm with rfl
    cases h
  | cons x xs =>
    have hmem : t.id ∈ ts.map Task.id := List.mem_map_of_mem Task.id h
    rw [hm] at hmem
    rcases List.mem_cons.mp hmem with heq | hmem2
    · rw [heq]; exact le_foldl_max xs x x le_rfl
    · exact mem_le_foldl_max xs x t.id hmem2

/-- `setTask` never changes the sequence of ids. -/
theorem setTask_map_id (task_id : Int) (a b c : Option String) (now : String)
    (ts : List Task) :
    (setTask task_id a b c now ts).map Task.id = ts.map Task.id := by
  induction ts with
  | nil => rfl
  | cons t rest ih =>
    by_cases h : t.id = task_id
    · simp [setTask, h]
    · simp [setTask, h, ih]

/-- Each operation preserves pairwise uniqueness of the live ids. -/
theorem execOp_nodup (st : StoreState) (op : Op)
    (h : (st.tasks.map Task.id).Nodup) :
    ((execOp st op).tasks.map Task.id).Nodup := by
  cases op with
  | create title description now =>
    simp only [execOp, create_task]
    split
    · exact h
    · simp only [save_tasks, List.map_append, List.map_cons, List.map_nil]
      rw [List.nodup_append]
      refine ⟨h, List.nodup_singleton _, ?_⟩
      intro a ha hb
      have hmem : ∃ u ∈ st.tasks, u.id = a := by
        rcases List.mem_map.mp ha with ⟨u, hu, rfl⟩
        exact ⟨u, hu, rfl⟩
      rcases hmem with ⟨u, hu, rfl⟩
      have hle := id_le_maxIds st.tasks u hu
      have : u.id = maxIds st.tasks + 1 := by simpa using hb
      omega
  | update task_id a b c now =>
    simp only [execOp, update_task]
    cases hg : get_task st.tasks task_id with
    | none => exact h
    | some t =>
      simpa [save_tasks, setTask_map_id] using h
  | delete task_id =>
    simp only [execOp, delete_task]
    cases hg : get_task st.tasks task_id with
    | none => exact h
    | some t =>
      simp only [save_tasks]
      exact h.sublist (List.Sublist.map Task.id (List.filter_sublist st.tasks))

/-- Uniqueness holds after any operation sequence from a fresh store. -/
theorem execOps_nodup (ops : List Op) (st : StoreState)
    (h : (st.tasks.map Task.id).Nodup) :
    ((execOps st ops).tasks.map Task.id).Nodup := by
  induction ops generalizing st with
  | nil => exact h
  | cons op rest ih => exact ih (execOp st op) (execOp_nodup st op h)

end Tasks

/-! ## Claim C1 -/

/-- C1 (amended): along every sequence of create/update/delete operations
from a fresh store, the ids of the live tasks stay pairwise unique, and a
successful create always allocates an id strictly greater than every live
id. (The original claim's further assertion that a deleted id is never
reassigned fails: see the counterexample.) -/
theorem C1_id_uniqueness :
    (∀ ops : List Tasks.Op,
      (((Tasks.execOps Tasks.initState ops).tasks.map Tasks.Task.id).Nodup))
    ∧ (∀ (st : Tasks.StoreState) (title description now : String)
        (task : Tasks.Task),
        (Tasks.create_task st title description now).1.1 = some task →
        ∀ t ∈ st.tasks, t.id < task.id) := by
  constructor
  · intro ops
    exact Tasks.execOps_nodup ops Tasks.initState (by simp [Tasks.initState])
  · intro st title description now task hcreate t ht
    unfold Tasks.create_task at hcreate
    split at hcreate
    · exact absurd hcreate (by simp)
    · have : task.id = Tasks.maxIds st.tasks + 1 := by
        simp only [Option.some.injEq] at hcreate
        rw [← hcreate]
      have hle := Tasks.id_le_maxIds st.tasks t ht
      omega

/-- C1 witness: the uniqueness invariant after a concrete operation
sequence, and allocation above every live id in a concrete two-task store. -/
theorem C1_witness :
    (((Tasks.execOps Tasks.initState
        [.create "a" "" "T1", .create "b" "" "T2", .delete 1]).tasks.map
          Tasks.Task.id).Nodup)
    ∧ ((Tasks.create_task
          { tasks := [{ id := 1, title := "x", description := "", status := "активная",
                        created_at := "T1", updated_at := "T1" },
                      { id := 4, title := "y", description := "", status := "активная",
                        created_at := "T2", updated_at := "T2" }], file := [] }
          "z" "" "T3").1.1 = some
            { id := 5, title := "z", description := "", status := "активная",
              created_at := "T3", updated_at := "T3" }
        ∧ ∀ t ∈ [({ id := 1, title := "x", description := "", status := "активная",
                    created_at := "T1", updated_at := "T1" } : Tasks.Task),
                 { id := 4, title := "y", description := "", status := "активная",
                   created_at := "T2", updated_at := "T2" }], t.id < (5 : Int)) := by
  refine ⟨C1_id_uniqueness.1 [.create "a" "" "T1", .create "b" "" "T2", .delete 1], by decide, ?_⟩
  intro t ht
  have := C1_id_uniqueness.2
    { tasks := [{ id := 1, title := "x", description := "", status := "активная",
                  created_at := "T1", updated_at := "T1" },
                { id := 4, title := "y", description := "", status := "активная",
                  created_at := "T2", updated_at := "T2" }], file := [] }
    "z" "" "T3"
    { id := 5, title := "z", description := "", status := "активная",
      created_at := "T3", updated_at := "T3" }
    (by decide)
  exact this t ht

/-- C1 counterexample: id 2 is created (task "b"), its task deleted, and a
later create reassigns id 2 (task "c") — a deleted id is reused. -/
theorem C1_counterexample :
    ((Tasks.execOps Tasks.initState
        [.create "a" "" "T1", .create "b" "" "T2"]).tasks.map
          (fun t => (t.id, t.title)) = [(1, "a"), (2, "b")])
    ∧ ((Tasks.execOps Tasks.initState
        [.create "a" "" "T1", .create "b" "" "T2", .delete 2]).tasks.map
          (fun t => (t.id, t.title)) = [(1, "a")])
    ∧ ((Tasks.execOps Tasks.initState
        [.create "a" "" "T1", .create "b" "" "T2", .delete 2,
         .create "c" "" "T3"]).tasks.map
          (fun t => (t.id, t.title)) = [(1, "a"), (2, "c")]) := by
  refine ⟨by decide, by decide, by decide⟩

/-! ## Claim C2 -/

/-- C2 (amended): with no period and no start/end pair the date-filtering
helper appends nothing, so it returns the empty list — not the input
collection (the two coincide only on empty input). -/
theorem C2_no_criteria_returns_empty (now : Reports.DateTime)
    (tasks : List Reports.RTask) :
    Reports.filter_tasks_by_date now none none none tasks = [] := by
  induction tasks with
  | nil => rfl
  | cons t ts ih =>
    simp [Reports.filter_tasks_by_date, Reports.pyTruthyInt,
      Reports.pyTruthyStr, ih]

/-- C2 counterexample: on a one-task collection, the helper called with no
criteria does not return the input unchanged. -/
theorem C2_counterexample :
    Reports.filter_tasks_by_date { day := 0, sec := 0 } none none none
        [{ id := 1, title := "t", status := "активная",
           created_at := { day := 0, sec := 0 } }]
      ≠ [{ id := 1, title := "t", status := "активная",
           created_at := { day := 0, sec := 0 } }] := by
  decide

/-! ## Claim C3 -/

/-- C3 (amended): when both bounds are supplied (truthy) and either fails
to parse, the failure is non-fatal (the notice is only printed), but every
entry of the range branch is dropped: the helper returns the empty list, and
no entry is evaluated against the remaining valid bound. -/
theorem C3_malformed_bound_drops_all (now : Reports.DateTime)
    (tasks : List Reports.RTask) (sd ed : String)
    (hsd : sd ≠ "") (hed : ed ≠ "")
    (hbad : Reports.fromisoformat sd = none ∨ Reports.fromisoformat ed = none) :
    Reports.filter_tasks_by_date now none (some sd) (some ed) tasks = [] := by
  induction tasks with
  | nil => rfl
  | cons t ts ih =>
    rcases hbad with h | h
    · simp [Reports.filter_tasks_by_date, Reports.pyTruthyInt,
        Reports.pyTruthyStr, hsd, hed, h, ih]
    · cases hs : Reports.fromisoformat sd <;>
        simp [Reports.filter_tasks_by_date, Reports.pyTruthyInt,
          Reports.pyTruthyStr, hsd, hed, h, hs, ih]

/-- C3 witness: a malformed start bound with a valid end bound empties a
one-task collection. -/
theorem C3_witness :
    ("oops" ≠ "" ∧ "2024-05-10" ≠ ""
      ∧ Reports.fromisoformat "oops" = none)
    ∧ Reports.filter_tasks_by_date { day := 0, sec := 0 } none
        (some "oops") (some "2024-05-10")
        [{ id := 1, title := "t", status := "активная",
           created_at := { day := 0, sec := 0 } }] = [] := by
  refine ⟨⟨by decide, by decide, by decide⟩, ?_⟩
  exact C3_malformed_bound_drops_all { day := 0, sec := 0 }
    [{ id := 1, title := "t", status := "активная",
       created_at := { day := 0, sec := 0 } }]
    "oops" "2024-05-10" (by decide) (by decide) (Or.inl (by decide))

/-- C3 counterexample: the start bound is malformed, the end bound parses,
the task satisfies the end-bound criterion, yet the task is dropped — the
claim's "still evaluated against any other active criterion" fails. -/
theorem C3_counterexample :
    Reports.fromisoformat "oops" = none
    ∧ Reports.fromisoformat "2024-05-10" = some { day := 19853, sec := 0 }
    ∧ Reports.DateTime.le { day := 0, sec := 0 } { day := 19853, sec := 0 }
    ∧ Reports.filter_tasks_by_date { day := 0, sec := 0 } none
        (some "oops") (some "2024-05-10")
        [{ id := 1, title := "t", status := "активная",
           created_at := { day := 0, sec := 0 } }] = [] := by
  refine ⟨by decide, by decide, by decide, by decide⟩

/-! ## Claim C4 -/

/-- C4 (amended): for every NON-EMPTY snapshot, `timeline(days)` returns
exactly `days + 1` entries, one per calendar day from `now − days` through
`now` inclusive, and each entry's `total_tasks` is the number of snapshot
tasks created on that calendar day (time of day ignored). On the empty
snapshot the report is the no-data sentinel instead (see the
counterexample), so "always ... regardless of data sparsity" holds only for
non-empty snapshots. -/
theorem C4_timeline_entries (now : Reports.DateTime) (days : Nat)
    (tasks : List Reports.RTask) (h : tasks ≠ []) :
    (Reports.generate_timeline_report now tasks days).entries.length = days + 1
    ∧ ∀ i : Nat, i < days + 1 →
      ((Reports.generate_timeline_report now tasks days).entries[i]?.map
          Reports.TimelineEntry.date
        = some (now.day - (days : Int) + (i : Int)))
      ∧ ((Reports.generate_timeline_report now tasks days).entries[i]?.map
          Reports.TimelineEntry.total_tasks
        = some (tasks.countP
            (fun t => t.created_at.day == now.day - (days : Int) + (i : Int)))) := by
  unfold Reports.generate_timeline_report
  rw [if_neg h]
  refine ⟨?_, ?_⟩
  · show (List.map _ (List.range (days + 1))).length = days + 1
    rw [List.length_map, List.length_range]
  · intro i hi
    have hr : (List.range (days + 1))[i]? = some i := List.getElem?_range hi
    refine ⟨?_, ?_⟩
    · show ((List.map _ (List.range (days + 1)))[i]?).map _ = _
      rw [List.getElem?_map, hr]
      rfl
    · show ((List.map _ (List.range (days + 1)))[i]?).map _ = _
      rw [List.getElem?_map, hr]
      exact congrArg some (List.countP_eq_length_filter _ _).symm

/-- C4 witness: a concrete one-task snapshot with `days = 2` yields exactly
three entries. -/
theorem C4_witness :
    ([({ id := 1, title := "a", status := "активная",
         created_at := { day := 10, sec := 3 } } : Reports.RTask)] ≠ [])
    ∧ (Reports.generate_timeline_report { day := 10, sec := 0 }
        [{ id := 1, title := "a", status := "активная",
           created_at := { day := 10, sec := 3 } }] 2).entries.length = 2 + 1 :=
  ⟨by decide,
   (C4_timeline_entries { day := 10, sec := 0 } 2
     [{ id := 1, title := "a", status := "активная",
        created_at := { day := 10, sec := 3 } }] (by decide)).1⟩

/-- C4 counterexample: on the empty snapshot, `timeline(days=2)` returns
the no-data sentinel and not three entries, so the unrestricted "always"
fails. -/
theorem C4_counterexample :
    Reports.generate_timeline_report { day := 0, sec := 0 } [] 2
        = .noData
    ∧ (Reports.generate_timeline_report { day := 0, sec := 0 } [] 2).entries.length
        ≠ 3 := by
  refine ⟨by decide, by decide⟩

/-! ## Claim C5 -/

namespace Reports

theorem dictGet_bumpKey (k2 k : String) (l : List (String × Nat)) :
    dictGet (bumpKey k2 l) k = dictGet l k + (if k2 = k then 1 else 0) := by
  induction l with
  | nil =>
    by_cases h : k2 = k <;> simp [bumpKey, dictGet, h]
  | cons p rest ih =>
    obtain ⟨k3, n⟩ := p
    by_cases h : k3 = k2
    · subst h
      by_cases h2 : k3 = k <;> simp [bumpKey, dictGet, h2]
    · by_cases h2 : k3 = k
      · subst h2
        simp [bumpKey, dictGet, h, Ne.symm h, ih]
      · simp [bumpKey, dictGet, h, h2, ih]

/-- The `status_count` dictionary agrees with a direct count of the status
label. -/
theorem dictGet_statusCount_aux (ts : List RTask)
    (acc : List (String × Nat)) (k : String) :
    dictGet (ts.foldl (fun a t => bumpKey t.status a) acc) k
      = dictGet acc k + ts.countP (fun t => decide (t.status = k)) := by
  induction ts generalizing acc with
  | nil => simp
  | cons t rest ih =>
    rw [List.foldl_cons, ih, dictGet_bumpKey, List.countP_cons]
    by_cases h : t.status = k
    · simp [h]
      omega
    · simp [h]

theorem dictGet_statusCount (ts : List RTask) (k : String) :
    dictGet (statusCount ts) k = ts.countP (fun t => decide (t.status = k)) := by
  have := dictGet_statusCount_aux ts [] k
  simpa [statusCount, dictGet] using this

end Reports

/-- C5: for every summary report actually produced, the completion rate (in
exact hundredths of a percent) is the count of tasks in scope carrying
exactly the completed label, divided by the total in scope, times 100,
rounded to two decimals — and 0 when the scope is empty. In particular
`summary("all")` over three same-day tasks, two completed and one active,
reports `total_tasks = 3`, `completion_rate = 66.67` and a most-active day
with 3 creations. (The code's label for "completed" is the Russian
"завершенная".) -/
theorem C5_summary_completion_rate :
    (∀ (now : Reports.DateTime) (tasks : List Reports.RTask) (period : String)
        (r : Reports.SummaryReport),
        Reports.generate_summary_report now tasks period = .ok r →
        r.completion_rate_cents =
          (if (Reports.summaryScope now tasks period).length > 0 then
            Reports.ratioCents
              ((Reports.summaryScope now tasks period).countP
                (fun t => decide (t.status = "завершенная")))
              (Reports.summaryScope now tasks period).length
          else 0))
    ∧ (Reports.generate_summary_report { day := 5, sec := 0 }
          [{ id := 1, title := "a", status := "завершенная",
             created_at := { day := 0, sec := 0 } },
           { id := 2, title := "b", status := "завершенная",
             created_at := { day := 0, sec := 5 } },
           { id := 3, title := "c", status := "активная",
             created_at := { day := 0, sec := 9 } }]
          "all"
        = .ok { period := "all", total_tasks := 3,
                status_distribution := [("завершенная", 2), ("активная", 1)],
                completion_rate_cents := 6667,
                most_active_date := some 0, most_active_count := 3,
                average_tasks_per_day_cents := 300 }) := by
  constructor
  · intro now tasks period r hok
    unfold Reports.generate_summary_report at hok
    by_cases h : tasks = []
    · rw [if_pos h] at hok; cases hok
    · rw [if_neg h] at hok
      injection hok with h2
      rw [← h2]
      show (if (Reports.summaryScope now tasks period).length > 0 then
          Reports.ratioCents
            (Reports.dictGet (Reports.statusCount (Reports.summaryScope now tasks period))
              "завершенная")
            (Reports.summaryScope now tasks period).length
        else 0) = _
      rw [Reports.dictGet_statusCount]
  · decide

/-- C5 witness: the completion-rate formula instantiated on a concrete
"week"-filtered report. -/
theorem C5_witness :
    (Reports.generate_summary_report { day := 10, sec := 0 }
        [{ id := 1, title := "a", status := "завершенная",
           created_at := { day := 8, sec := 0 } },
         { id := 2, title := "b", status := "активная",
           created_at := { day := 0, sec := 0 } }] "week"
      = .ok { period := "week", total_tasks := 1,
              status_distribution := [("завершенная", 1)],
              completion_rate_cents := 10000,
              most_active_date := some 8, most_active_count := 1,
              average_tasks_per_day_cents := 100 })
    ∧ (Reports.SummaryReport.completion_rate_cents
        { period := "week", total_tasks := 1,
          status_distribution := [("завершенная", 1)],
          completion_rate_cents := 10000,
          most_active_date := some 8, most_active_count := 1,
          average_tasks_per_day_cents := 100 }
      = (if (Reports.summaryScope { day := 10, sec := 0 }
              [{ id := 1, title := "a", status := "завершенная",
                 created_at := { day := 8, sec := 0 } },
               { id := 2, title := "b", status := "активная",
                 created_at := { day := 0, sec := 0 } }] "week").length > 0 then
          Reports.ratioCents
            ((Reports.summaryScope { day := 10, sec := 0 }
                [{ id := 1, title := "a", status := "завершенная",
                   created_at := { day := 8, sec := 0 } },
                 { id := 2, title := "b", status := "активная",
                   created_at := { day := 0, sec := 0 } }] "week").countP
              (fun t => decide (t.status = "завершенная")))
            (Reports.summaryScope { day := 10, sec := 0 }
                [{ id := 1, title := "a", status := "завершенная",
                   created_at := { day := 8, sec := 0 } },
                 { id := 2, title := "b", status := "активная",
                   created_at := { day := 0, sec := 0 } }] "week").length
        else 0)) :=
  ⟨by decide,
   C5_summary_completion_rate.1 { day := 10, sec := 0 }
     [{ id := 1, title := "a", status := "завершенная",
        created_at := { day := 8, sec := 0 } },
      { id := 2, title := "b", status := "активная",
        created_at := { day := 0, sec := 0 } }] "week"
     { period := "week", total_tasks := 1,
       status_distribution := [("завершенная", 1)],
       completion_rate_cents := 10000,
       most_active_date := some 8, most_active_count := 1,
       average_tasks_per_day_cents := 100 }
     (by decide)⟩

/-! ## Claim C6 -/

namespace Tasks

/-- Dictionary round trip for a single task with non-empty timestamps. -/
theorem from_to_dict (nowL : String) (t : Task)
    (h1 : t.created_at ≠ "") (h2 : t.updated_at ≠ "") :
    from_dict nowL (to_dict t) = t := by
  simp [from_dict, to_dict, pyOr, h1, h2]

/-- Saving then loading restores any collection whose timestamps are
non-empty strings. -/
theorem load_save_inv (nowL : String) (ts : List Task)
    (h : ∀ t ∈ ts, t.created_at ≠ "" ∧ t.updated_at ≠ "") :
    load_tasks nowL (ts.map to_dict) = ts := by
  induction ts with
  | nil => rfl
  | cons t rest ih =>
    have ht := h t (by simp)
    have hrest : ∀ u ∈ rest, u.created_at ≠ "" ∧ u.updated_at ≠ "" :=
      fun u hu => h u (List.mem_cons_of_mem _ hu)
    simp only [load_tasks, List.map_cons] at ih ⊢
    rw [from_to_dict nowL t ht.1 ht.2, ih hrest]

end Tasks

/-- C6: creating a task (with a non-empty wall-clock reading) and saving,
then loading the file into a fresh store, restores the collection
field-for-field and in order, provided the pre-existing tasks carry
non-empty timestamps — which every store built by the manager does, since
both timestamps are stamped from `datetime.now().isoformat()`. -/
theorem C6_save_load_roundtrip (st : Tasks.StoreState)
    (title description nowC nowL : String)
    (hnow : nowC ≠ "")
    (h : ∀ t ∈ st.tasks, t.created_at ≠ "" ∧ t.updated_at ≠ "") :
    Tasks.load_tasks nowL
        (Tasks.save_tasks (Tasks.create_task st title description nowC).2).file
      = (Tasks.create_task st title description nowC).2.tasks := by
  unfold Tasks.create_task
  by_cases hT : Tasks.pyStrip title = ""
  · rw [if_pos hT]
    exact Tasks.load_save_inv nowL st.tasks h
  · rw [if_neg hT]
    refine Tasks.load_save_inv nowL _ ?_
    intro u hu
    rcases List.mem_append.mp hu with h1 | h1
    · exact h u h1
    · have : u = { id := Tasks.maxIds st.tasks + 1, title := title,
                   description := description, status := "активная",
                   created_at := nowC, updated_at := nowC } := by
        simpa using h1
      rw [this]
      exact ⟨hnow, hnow⟩

/-- C6 witness: the round trip on a fresh store and a concrete create. -/
theorem C6_witness :
    ("2024-01-01T00:00:00" ≠ ""
      ∧ (∀ t ∈ Tasks.initState.tasks, t.created_at ≠ "" ∧ t.updated_at ≠ ""))
    ∧ Tasks.load_tasks "L"
        (Tasks.save_tasks
          (Tasks.create_task Tasks.initState "A" "" "2024-01-01T00:00:00").2).file
      = (Tasks.create_task Tasks.initState "A" "" "2024-01-01T00:00:00").2.tasks :=
  ⟨⟨by decide, by simp [Tasks.initState]⟩,
   C6_save_load_roundtrip Tasks.initState "A" "" "2024-01-01T00:00:00" "L"
     (by decide) (by simp [Tasks.initState])⟩

/-! ## Claim C7 -/

/-- C7 (amended): when both arguments are supplied AND non-empty (Python
truthiness: an empty string is treated as "not given", see the
counterexample), `filter_tasks` returns exactly the tasks whose status
equals the given status and whose title or description contains the keyword
case-insensitively, in the insertion order of the collection. -/
theorem C7_filter_status_keyword (ts : List Tasks.Task) (s k : String)
    (hs : s ≠ "") (hk : k ≠ "") :
    Tasks.filter_tasks ts (some s) (some k)
      = ts.filter (fun t => t.status == s
          && (Tasks.pyInStr (Tasks.pyLower k) (Tasks.pyLower t.title)
              || Tasks.pyInStr (Tasks.pyLower k) (Tasks.pyLower t.description))) := by
  simp only [Tasks.filter_tasks, hs, hk, ite_false, List.filter_filter]
  rw [List.filter_congr]
  intro t _
  exact Bool.and_comm _ _

/-- C7 witness: the spec's own example — only the completed "fix bug" task
survives both filters. -/
theorem C7_witness :
    (("completed" : String) ≠ "" ∧ ("bug" : String) ≠ "")
    ∧ Tasks.filter_tasks
        [{ id := 1, title := "fix bug", description := "", status := "active",
           created_at := "c", updated_at := "u" },
         { id := 2, title := "fix bug", description := "", status := "completed",
           created_at := "c", updated_at := "u" },
         { id := 3, title := "other", description := "", status := "completed",
           created_at := "c", updated_at := "u" }]
        (some "completed") (some "bug")
      = List.filter (fun t => t.status == "completed"
          && (Tasks.pyInStr (Tasks.pyLower "bug") (Tasks.pyLower t.title)
              || Tasks.pyInStr (Tasks.pyLower "bug") (Tasks.pyLower t.description)))
        [{ id := 1, title := "fix bug", description := "", status := "active",
           created_at := "c", updated_at := "u" },
         { id := 2, title := "fix bug", description := "", status := "completed",
           created_at := "c", updated_at := "u" },
         { id := 3, title := "other", description := "", status := "completed",
           created_at := "c", updated_at := "u" }] :=
  ⟨⟨by decide, by decide⟩,
   C7_filter_status_keyword
     [{ id := 1, title := "fix bug", description := "", status := "active",
        created_at := "c", updated_at := "u" },
      { id := 2, title := "fix bug", description := "", status := "completed",
        created_at := "c", updated_at := "u" },
      { id := 3, title := "other", description := "", status := "completed",
        created_at := "c", updated_at := "u" }]
     "completed" "bug" (by decide) (by decide)⟩

/-- C7 counterexample: with a supplied-but-empty status and keyword "bug",
the filter returns a task whose status is NOT the given (empty) status —
the empty string is falsy in Python, so the status criterion is silently
skipped rather than matched exactly. -/
theorem C7_counterexample :
    Tasks.filter_tasks
        [{ id := 1, title := "fix bug", description := "", status := "активная",
           created_at := "c", updated_at := "u" }]
        (some "") (some "bug")
      = [{ id := 1, title := "fix bug", description := "", status := "активная",
           created_at := "c", updated_at := "u" }]
    ∧ ("активная" : String) ≠ "" := by
  refine ⟨by decide, by decide⟩

/-! ## Claim C8 -/

namespace Tasks

/-- Updating through `setTask` rewrites exactly the first matching task. -/
theorem get_task_setTask (ts : List Task) (task_id : Int)
    (a b c : Option String) (now : String) (t : Task)
    (h : get_task ts task_id = some t) :
    get_task (setTask task_id a b c now ts) task_id
      = some { id := t.id, title := a.getD t.title,
               description := b.getD t.description,
               status := c.getD t.status,
               created_at := t.created_at, updated_at := now } := by
  induction ts with
  | nil => cases h
  | cons u rest ih =>
    by_cases hu : u.id = task_id
    · unfold get_task at h
      rw [if_pos hu] at h
      injection h with h
      subst h
      simp [setTask, hu, get_task]
    · unfold get_task at h
      rw [if_neg hu] at h
      simp [setTask, hu, get_task, ih h]

end Tasks

/-- C8: updating only the status of a present task changes exactly that
field: title, description and `created_at` are untouched, the omitted
optional fields are not modified, and `updated_at` becomes the new
wall-clock reading, which is `≥` the prior `updated_at` whenever the clock
has not gone backwards since the last write. -/
theorem C8_update_status_frame (st : Tasks.StoreState) (task_id : Int)
    (s now : String) (t : Tasks.Task)
    (hget : Tasks.get_task st.tasks task_id = some t)
    (hclock : Tasks.strLe t.updated_at now) :
    Tasks.get_task
        (Tasks.update_task st task_id none none (some s) now).2.tasks task_id
      = some { id := t.id, title := t.title, description := t.description,
               status := s, created_at := t.created_at, updated_at := now }
    ∧ Tasks.strLe t.updated_at
        (Tasks.Task.updated_at
          { id := t.id, title := t.title, description := t.description,
            status := s, created_at := t.created_at, updated_at := now }) := by
  constructor
  · unfold Tasks.update_task
    rw [hget]
    exact Tasks.get_task_setTask st.tasks task_id none none (some s) now t hget
  · exact hclock

/-- C8 witness: a concrete store and a clock that moved forward. -/
theorem C8_witness :
    (Tasks.get_task
        [{ id := 1, title := "ti", description := "de", status := "активная",
           created_at := "2024-01-01T00:00:00",
           updated_at := "2024-01-01T00:00:00" }] 1
      = some { id := 1, title := "ti", description := "de", status := "активная",
               created_at := "2024-01-01T00:00:00",
               updated_at := "2024-01-01T00:00:00" }
     ∧ Tasks.strLe "2024-01-01T00:00:00" "2024-01-02T09:30:00")
    ∧ Tasks.get_task
        (Tasks.update_task
          { tasks := [{ id := 1, title := "ti", description := "de",
                        status := "активная",
                        created_at := "2024-01-01T00:00:00",
                        updated_at := "2024-01-01T00:00:00" }],
            file := [] } 1 none none (some "завершенная")
          "2024-01-02T09:30:00").2.tasks 1
      = some { id := 1, title := "ti", description := "de",
               status := "завершенная", created_at := "2024-01-01T00:00:00",
               updated_at := "2024-01-02T09:30:00" } :=
  ⟨⟨by decide, by decide⟩,
   (C8_update_status_frame
     { tasks := [{ id := 1, title := "ti", description := "de",
                   status := "активная",
                   created_at := "2024-01-01T00:00:00",
                   updated_at := "2024-01-01T00:00:00" }], file := [] }
     1 "завершенная" "2024-01-02T09:30:00"
     { id := 1, title := "ti", description := "de", status := "активная",
       created_at := "2024-01-01T00:00:00",
       updated_at := "2024-01-01T00:00:00" }
     (by decide) (by decide)).1⟩

/-! ## Claim C9 -/

/-- C9: update and delete on an id not present in the collection both
return the failure pair with the "Задача не найдена" ("not found") message
and leave the whole store state — the in-memory collection AND the
persisted file — exactly unchanged (no save is performed). -/
theorem C9_not_found_noop (st : Tasks.StoreState) (task_id : Int)
    (title description status : Option String) (now : String)
    (h : Tasks.get_task st.tasks task_id = none) :
    Tasks.update_task st task_id title description status now
        = ((false, "Задача не найдена"), st)
    ∧ Tasks.delete_task st task_id = ((false, "Задача не найдена"), st) := by
  constructor
  · unfold Tasks.update_task
    rw [h]
  · unfold Tasks.delete_task
    rw [h]

/-- C9 witness: a store holding only task 1, queried for id 2. -/
theorem C9_witness :
    (Tasks.get_task
        [{ id := 1, title := "x", description := "", status := "активная",
           created_at := "c", updated_at := "u" }] 2 = none)
    ∧ Tasks.update_task
        { tasks := [{ id := 1, title := "x", description := "",
                      status := "активная", created_at := "c",
                      updated_at := "u" }], file := [] }
        2 none none (some "завершенная") "T"
      = ((false, "Задача не найдена"),
         { tasks := [{ id := 1, title := "x", description := "",
                       status := "активная", created_at := "c",
                       updated_at := "u" }], file := [] }) :=
  ⟨by decide,
   (C9_not_found_noop
     { tasks := [{ id := 1, title := "x", description := "",
                   status := "активная", created_at := "c",
                   updated_at := "u" }], file := [] }
     2 none none (some "завершенная") "T" (by decide)).1⟩

/-! ## Claim C10 -/

namespace Reports

/-- When every task predates the period cutoff, the period filter keeps
nothing. -/
theorem filter_period_none (now : DateTime) (pd : Int) (hpd : pd ≠ 0)
    (tasks : List RTask)
    (h : ∀ t ∈ tasks, ¬ DateTime.le (now.subDays pd) t.created_at) :
    filter_tasks_by_date now (some pd) none none tasks = [] := by
  induction tasks with
  | nil => rfl
  | cons t ts ih =>
    have ht := h t (by simp)
    have hrest : ∀ u ∈ ts, ¬ DateTime.le (now.subDays pd) u.created_at :=
      fun u hu => h u (List.mem_cons_of_mem _ hu)
    simp [filter_tasks_by_date, pyTruthyInt, hpd, ht, ih hrest]

/-- The three named periods map to a non-zero day count. -/
theorem period_map_ne_zero (period : String) (pd : Int)
    (h : period_map period = some pd) : pd ≠ 0 := by
  unfold period_map at h
  split_ifs at h
  · injection h with h2
    omega
  · injection h with h2
    omega
  · injection h with h2
    omega

end Reports

/-- C10: on a NON-EMPTY snapshot, a summary for one of the named periods
whose date range contains no task does not return the "no data" sentinel —
the sentinel is keyed to the whole snapshot being empty — but a normal
report with zero totals: `total_tasks = 0`, empty status distribution,
completion rate 0, the "Нет данных" most-active-day placeholder with count
0, and average tasks per day 0. -/
theorem C10_empty_range_not_sentinel (now : Reports.DateTime)
    (tasks : List Reports.RTask) (period : String) (pd : Int)
    (hne : tasks ≠ [])
    (hp : Reports.period_map period = some pd)
    (h : ∀ t ∈ tasks, ¬ Reports.DateTime.le (now.subDays pd) t.created_at) :
    Reports.generate_summary_report now tasks period
      = .ok { period := period, total_tasks := 0, status_distribution := [],
              completion_rate_cents := 0, most_active_date := none,
              most_active_count := 0, average_tasks_per_day_cents := 0 } := by
  have hscope : Reports.summaryScope now tasks period = [] := by
    unfold Reports.summaryScope
    rw [hp]
    exact Reports.filter_period_none now pd
      (Reports.period_map_ne_zero period pd hp) tasks h
  unfold Reports.generate_summary_report
  rw [if_neg hne, hscope]
  rfl

/-- C10 witness: one old task, period "week", a clock far past it. -/
theorem C10_witness :
    (([({ id := 1, title := "t", status := "активная",
          created_at := { day := 0, sec := 0 } } : Reports.RTask)] ≠ [])
      ∧ Reports.period_map "week" = some 7
      ∧ (∀ t ∈ [({ id := 1, title := "t", status := "активная",
                   created_at := { day := 0, sec := 0 } } : Reports.RTask)],
          ¬ Reports.DateTime.le
            (Reports.DateTime.subDays { day := 1000, sec := 0 } 7) t.created_at))
    ∧ Reports.generate_summary_report { day := 1000, sec := 0 }
        [{ id := 1, title := "t", status := "активная",
           created_at := { day := 0, sec := 0 } }] "week"
      = .ok { period := "week", total_tasks := 0, status_distribution := [],
              completion_rate_cents := 0, most_active_date := none,
              most_active_count := 0, average_tasks_per_day_cents := 0 } :=
  ⟨⟨by decide, by decide, by decide⟩,
   C10_empty_range_not_sentinel { day := 1000, sec := 0 }
     [{ id := 1, title := "t", status := "активная",
        created_at := { day := 0, sec := 0 } }] "week" 7
     (by decide) (by decide) (by decide)⟩
